import Mathlib

/-!
Verification of the fast-insurance-claims service (FastAPI + SQLite).

Shallow embedding of `app/claims_api/main.py`, `schemas.py`, `models.py`
and the request routing, as pure Lean functions over an explicit store
state.  External collaborators (the zero-shot classifier, the
natural-language agent) are opaque function parameters, as the spec
treats them.  Machine floats are represented as exact values (the
claims under study only compare exactly representable numbers);
calendar dates are day ordinals.
-/

/-! ## Models of Python primitives

`int(<str>)` and `float(<str>)` as the CPython builtins behave on the
inputs this service can receive: surrounding whitespace stripped, an
optional sign, base-10 digits with single underscores between digits;
`float` additionally allows a fraction part, an exponent part and the
keywords inf/infinity/nan (case-insensitive).  Values are exact
(no binary64 rounding); only exactly representable numbers are compared
in this development.
-/

/-- Strip leading and trailing whitespace, as Python `str.strip()` does
for the ASCII whitespace that can reach this API. -/
def stripWs (cs : List Char) : List Char :=
  ((cs.dropWhile Char.isWhitespace).reverse.dropWhile Char.isWhitespace).reverse

/-- Value of a decimal digit character. -/
def digitVal (c : Char) : Nat := c.toNat - 48

/-- Continue scanning a Python digit group: digits with single
underscores allowed between digits (no leading, trailing or doubled
underscore).  Accumulates the value and the number of digits seen. -/
def pyDigitsGo (acc : Nat) (k : Nat) : List Char → Option (Nat × Nat)
  | [] => some (acc, k)
  | '_' :: c :: cs =>
    if c.isDigit then pyDigitsGo (acc * 10 + digitVal c) (k + 1) cs else none
  | c :: cs =>
    if c.isDigit then pyDigitsGo (acc * 10 + digitVal c) (k + 1) cs else none

/-- A nonempty Python digit group: its value and its digit count. -/
def pyDigitsCount : List Char → Option (Nat × Nat)
  | [] => none
  | c :: cs => if c.isDigit then pyDigitsGo (digitVal c) 1 cs else none

/-- A nonempty Python digit group, value only. -/
def pyDigits (cs : List Char) : Option Nat :=
  (pyDigitsCount cs).map Prod.fst

/-- Python `int(s)` for a string: strip whitespace, optional sign,
nonempty digit group.  `none` models the `ValueError`. -/
def pyIntParse (s : String) : Option Int :=
  match stripWs s.data with
  | '+' :: rest => (pyDigits rest).map Int.ofNat
  | '-' :: rest => (pyDigits rest).map (fun n => -(n : Int))
  | rest => (pyDigits rest).map Int.ofNat

/-- A Python float value, exactly: a finite value is kept as the exact
rational the literal denotes. -/
inductive PyFloat where
  | finite (q : ℚ)
  | inf
  | ninf
  | nan
deriving DecidableEq, Repr

/-- Split a character list at the first occurrence of a separator
satisfying `sep`; returns the part before and, when the separator
occurs, the part after it. -/
def splitOnFirst (sep : Char → Bool) : List Char → List Char × Option (List Char)
  | [] => ([], none)
  | c :: cs =>
    if sep c then ([], some cs)
    else
      let r := splitOnFirst sep cs
      (c :: r.1, r.2)

/-- The mantissa of a Python float literal: `digits`, `digits.`,
`.digits` or `digits.digits`, each digit group with Python underscore
rules. -/
def parseMantissa (cs : List Char) : Option ℚ :=
  let r := splitOnFirst (fun c => c = '.') cs
  match r.2 with
  | none => (pyDigitsCount r.1).map (fun v => (v.1 : ℚ))
  | some fp =>
    match r.1, fp with
    | [], [] => none
    | [], _ => (pyDigitsCount fp).map (fun v => (v.1 : ℚ) / (10 : ℚ) ^ v.2)
    | ip, [] => (pyDigitsCount ip).map (fun v => (v.1 : ℚ))
    | ip, _ =>
      match pyDigitsCount ip, pyDigitsCount fp with
      | some iv, some fv => some ((iv.1 : ℚ) + (fv.1 : ℚ) / (10 : ℚ) ^ fv.2)
      | _, _ => none

/-- The optionally signed exponent digit group of a float literal. -/
def parseExponent (cs : List Char) : Option Int :=
  match cs with
  | '+' :: rest => (pyDigits rest).map Int.ofNat
  | '-' :: rest => (pyDigits rest).map (fun n => -(n : Int))
  | rest => (pyDigits rest).map Int.ofNat

/-- The numeric (non-inf, non-nan) body of a Python float literal,
after sign removal: mantissa with optional `e`/`E` exponent. -/
def pyNumericParse (cs : List Char) : Option ℚ :=
  let r := splitOnFirst (fun c => c = 'e' || c = 'E') cs
  match r.2 with
  | none => parseMantissa r.1
  | some ecs =>
    match parseMantissa r.1, parseExponent ecs with
    | some m, some e => some (m * (10 : ℚ) ^ e)
    | _, _ => none

/-- The body of a Python float literal after sign removal: the
inf/infinity/nan keywords (case-insensitive) or a numeric literal. -/
def pyFloatParseSigned (neg : Bool) (cs : List Char) : Option PyFloat :=
  let low := cs.map Char.toLower
  if low = "inf".data || low = "infinity".data then
    some (if neg then .ninf else .inf)
  else if low = "nan".data then some .nan
  else (pyNumericParse cs).map (fun q => .finite (if neg then -q else q))

/-- Python `float(s)` for a string: strip whitespace, optional sign,
then keyword or numeric literal.  `none` models the `ValueError`. -/
def pyFloatParse (s : String) : Option PyFloat :=
  match stripWs s.data with
  | '+' :: rest => pyFloatParseSigned false rest
  | '-' :: rest => pyFloatParseSigned true rest
  | rest => pyFloatParseSigned false rest

/-! ## Data model (`models.py`) -/

/-- A row of the `claims` table (`models.Claim`).  `id` is the
system-assigned integer primary key, `claim_number` the caller-assigned
unique business identifier.  `date_filed` is a day ordinal. -/
structure Claim where
  id : Int
  claim_number : String
  claimant_name : String
  amount : PyFloat
  status : String
  date_filed : Nat
  description : Option String
  is_approved : Bool
deriving DecidableEq, Repr

/-- A row of the `claim_logs` table (`models.ClaimLog`).  `claim_id` is
nullable: the log writer stores `None` when the claim cannot be re-read. -/
structure ClaimLog where
  id : Int
  claim_id : Option Int
  action : String
  message : String
  timestamp : Nat
deriving DecidableEq, Repr

/-- The database state: the two tables, each in insertion order. -/
structure AppState where
  claims : List Claim
  logs : List ClaimLog
deriving DecidableEq, Repr

/-! ## Identifier resolution (`get_claim`, main.py 217-227)

The endpoint tries `int(claim_identifier)` and queries by `Claim.id` on
success; on `ValueError` it queries by `Claim.claim_number`.  The spec
names this two-way choice the Identifier Resolver, producing a single
lookup predicate. -/

/-- The lookup predicate the resolver produces: a primary-key lookup or
an exact, case-sensitive business-identifier lookup. -/
inductive LookupPredicate where
  | byId (n : Int)
  | byClaimNumber (s : String)
deriving DecidableEq, Repr

/-- Resolve a caller-supplied identifier string: the `try int(...)` /
`except ValueError` branch of `get_claim`. -/
def resolve (identifier : String) : LookupPredicate :=
  match pyIntParse identifier with
  | some n => .byId n
  | none => .byClaimNumber identifier

/-- Run a lookup predicate over the claims table: the
`db.query(models.Claim).filter(...).first()` call of `get_claim`. -/
def applyPredicate (p : LookupPredicate) (claims : List Claim) : Option Claim :=
  match p with
  | .byId n => claims.find? (fun c => c.id == n)
  | .byClaimNumber s => claims.find? (fun c => c.claim_number == s)

/-! ## Request body validation (`schemas.ClaimCreate`)

Pydantic (v1) validation of the `POST /claims` body.  A candidate body
is the JSON object as received: each field present or absent, the
amount a JSON number or a string (the payload shapes this API's
contract exercises).  Pydantic checks fields in declaration order
(`claim_number`, `claimant_name`, `amount`, ...); the error surfaced
here is the first one of that order, which is also exactly the check
`agent_tools.create_claim` performs by hand. -/

/-- An `amount` field as received in the JSON body: a number or a
string to be coerced by `float(...)`. -/
inductive AmountIn where
  | ofStr (s : String)
  | ofNum (q : ℚ)
deriving DecidableEq, Repr

/-- A `POST /claims` body before validation; `none` is an absent field. -/
structure ClaimCandidate where
  claim_number : Option String
  claimant_name : Option String
  amount : Option AmountIn
  status : Option String
  date_filed : Option Nat
  description : Option String
  is_approved : Option Bool
deriving DecidableEq, Repr

/-- Pydantic v1 coercion to `float`: a number is taken as is, a string
goes through `float(...)`. -/
def coerceAmount : AmountIn → Option PyFloat
  | .ofNum q => some (.finite q)
  | .ofStr s => pyFloatParse s

/-- A validation failure: the offending field, missing or not a number. -/
inductive ValidationError where
  | missing (field : String)
  | notANumber (field : String)
deriving DecidableEq, Repr

/-- The validated `schemas.ClaimCreate` model.  `status` carries its
pydantic default `"pending"`; `date_filed` stays optional (its default
is the SQLAlchemy column default, applied at insert time);
`is_approved` defaults to `false`. -/
structure ClaimCreate where
  claim_number : String
  claimant_name : String
  amount : PyFloat
  status : String
  date_filed : Option Nat
  description : Option String
  is_approved : Bool
deriving DecidableEq, Repr

/-- Validate a candidate body against `schemas.ClaimCreate`: the three
required fields must be present, `amount` must coerce to a number, the
optional fields take their declared defaults.  The error reported is
the first failing field in declaration order. -/
def validateClaimCreate (cand : ClaimCandidate) : Except ValidationError ClaimCreate :=
  match cand.claim_number with
  | none => .error (.missing "claim_number")
  | some cn =>
    match cand.claimant_name with
    | none => .error (.missing "claimant_name")
    | some nm =>
      match cand.amount with
      | none => .error (.missing "amount")
      | some a =>
        match coerceAmount a with
        | none => .error (.notANumber "amount")
        | some amt =>
          .ok { claim_number := cn, claimant_name := nm, amount := amt,
                status := cand.status.getD "pending",
                date_filed := cand.date_filed,
                description := cand.description,
                is_approved := cand.is_approved.getD false }

/-- The first missing required field in declaration order, as
`agent_tools.create_claim` scans `["claim_number", "claimant_name",
"amount"]`. -/
def firstMissingRequired (cand : ClaimCandidate) : Option String :=
  if cand.claim_number.isNone then some "claim_number"
  else if cand.claimant_name.isNone then some "claimant_name"
  else if cand.amount.isNone then some "amount"
  else none

/-! ## Responses, background tasks and the service operations -/

/-- The ranked output of the zero-shot classifier, as the HuggingFace
pipeline returns it: candidate labels reordered by descending score. -/
structure RankedOutput where
  labels : List String
  scores : List ℚ
deriving DecidableEq, Repr

/-- The external classifier, opaque: text and candidate labels in,
ranked output out. -/
def Classifier : Type := String → List String → RankedOutput

/-- The external natural-language agent, opaque: question in, answer or
failure out. -/
def Agent : Type := String → Except String String

/-- The payload of `GET /agent/check_fraud/{claim_id}`
(`schemas.FraudCheckResult`). -/
structure FraudResult where
  claim_id : Int
  claim_text : String
  labels : List String
  scores : List ℚ
  predicted_label : String
  fraud_probability : ℚ
deriving DecidableEq, Repr

/-- A response of the API, one constructor per payload shape; errors
carry the HTTP status and detail except validation and conflict
failures, which are kept structured. -/
inductive ApiResponse where
  | rootMsg
  | claimOut (c : Claim)
  | claimList (cs : List Claim)
  | logsOut (ls : List ClaimLog)
  | fraudOut (r : FraudResult)
  | agentOut (s : String)
  | validationError (e : ValidationError)
  | conflictError
  | httpError (status : Nat) (detail : String)
deriving DecidableEq, Repr

/-- A background task scheduled by a request handler
(`background_tasks.add_task(log_claim_creation, claim_number, db)`). -/
inductive BgTask where
  | logCreate (claim_number : String)
deriving DecidableEq, Repr

/-- The id SQLite assigns to the next inserted claim row: one more than
the largest existing rowid (1 on an empty table). -/
def nextClaimId (claims : List Claim) : Int :=
  (claims.map Claim.id).foldr max 0 + 1

/-- The id SQLite assigns to the next inserted log row. -/
def nextLogId (logs : List ClaimLog) : Int :=
  (logs.map ClaimLog.id).foldr max 0 + 1

/-- `POST /claims` (main.py 168-180): validate the body, insert the row
(the store's unique constraint on `claim_number` rejects a duplicate
and nothing is written), and schedule the logging background task.
A `date_filed` of `None` is omitted from the INSERT by SQLAlchemy, so
the column default `date.today` fires, as do the `status` and
`is_approved` column defaults (pydantic has already filled those). -/
def create_claim (today : Nat) (cand : ClaimCandidate) (st : AppState) :
    ApiResponse × AppState × List BgTask :=
  match validateClaimCreate cand with
  | .error e => (.validationError e, st, [])
  | .ok v =>
    if st.claims.any (fun c => c.claim_number == v.claim_number) then
      (.conflictError, st, [])
    else
      let c : Claim :=
        { id := nextClaimId st.claims, claim_number := v.claim_number,
          claimant_name := v.claimant_name, amount := v.amount,
          status := v.status, date_filed := v.date_filed.getD today,
          description := v.description, is_approved := v.is_approved }
      (.claimOut c, { st with claims := st.claims ++ [c] }, [.logCreate c.claim_number])

/-- `log_claim_creation` (main.py 117-135), the DB part: re-read the
claim by `claim_number`, then append one `ClaimLog` row whose
`claim_id` is the claim's id, or `None` when the re-read finds
nothing; the claims table is untouched. -/
def log_claim_creation (today : Nat) (claim_number : String) (st : AppState) : AppState :=
  let found := st.claims.find? (fun c => c.claim_number == claim_number)
  let entry : ClaimLog :=
    { id := nextLogId st.logs, claim_id := found.map Claim.id,
      action := "create", message := "Claim created: " ++ claim_number,
      timestamp := today }
  { st with logs := st.logs ++ [entry] }

/-- Run one scheduled background task against the state it observes. -/
def runBgTask (today : Nat) (t : BgTask) (st : AppState) : AppState :=
  match t with
  | .logCreate cn => log_claim_creation today cn st

/-- `GET /claims/{claim_identifier}` (main.py 206-232), the service
part: resolve the identifier, run the predicate, raise `ClaimNotFound`
carrying the original identifier on a miss. -/
def get_claim (identifier : String) (st : AppState) : Except String Claim :=
  match applyPredicate (resolve identifier) st.claims with
  | some c => .ok c
  | none => .error identifier

/-- The body the `ClaimNotFound` exception handler renders
(main.py 97-103): the identifier is interpolated verbatim. -/
def claimNotFoundDetail (identifier : String) : String :=
  "Claim with id " ++ identifier ++ " not found (custom handler)"

/-- `claim_not_found_handler`: a 404 response with the custom detail. -/
def claim_not_found_handler (identifier : String) : ApiResponse :=
  .httpError 404 (claimNotFoundDetail identifier)

/-- The `GET /claims/{claim_identifier}` route end to end: the service
lookup, with the exception handler applied on a miss. -/
def get_claim_route (identifier : String) (st : AppState) : ApiResponse :=
  match get_claim identifier st with
  | .ok c => .claimOut c
  | .error i => claim_not_found_handler i

/-- `GET /claims` (main.py 183-193): `if status:` filters only for a
present, non-empty status string (Python truthiness). -/
def get_claims (status : Option String) (st : AppState) : List Claim :=
  match status with
  | some s => if s = "" then st.claims else st.claims.filter (fun c => c.status == s)
  | none => st.claims

/-! ## Fraud assessment adapter (`check_fraudulent_claim`, main.py 257-282) -/

/-- Rendering of a float in an f-string, as used for `claim.amount`.
Approximate on non-integral values; the properties below never depend
on this text. -/
def pyFloatStr : PyFloat → String
  | .finite q => if q.den = 1 then toString q.num ++ ".0" else toString q
  | .inf => "inf"
  | .ninf => "-inf"
  | .nan => "nan"

/-- The candidate label set the endpoint passes to the classifier. -/
def fraudLabels : List String := ["fraudulent", "not fraudulent"]

/-- The fixed-template claim text (main.py 270).  A `None` description
renders as the string `"None"`, as the f-string does. -/
def claimText (c : Claim) : String :=
  "Claimant: " ++ c.claimant_name ++ ", Amount: " ++ pyFloatStr c.amount ++
    ", Status: " ++ c.status ++ ", Description: " ++
    (match c.description with
     | some d => d
     | none => "None")

/-- `GET /agent/check_fraud/{claim_id}`: 404 before any classifier use
when the id has no row; otherwise the classifier's ranked output is
re-exposed verbatim, the first entry as prediction.  Indexing is total
here (`headD`); the classifier contract (ranked output over the two
candidate labels) makes the lists nonempty. -/
def check_fraudulent_claim (classifier : Classifier) (claim_id : Int) (st : AppState) :
    ApiResponse :=
  match st.claims.find? (fun c => c.id == claim_id) with
  | none => .httpError 404 "Claim not found"
  | some claim =>
    let text := claimText claim
    let result := classifier text fraudLabels
    .fraudOut
      { claim_id := claim_id, claim_text := text,
        labels := result.labels, scores := result.scores,
        predicted_label := result.labels.headD "",
        fraud_probability := result.scores.headD 0 }

/-- The classifier contract the spec assigns to the external model: for
the two candidate labels, both output lists have length 2 and the
scores come sorted descending. -/
def WellRanked (r : RankedOutput) : Prop :=
  r.labels.length = 2 ∧ r.scores.length = 2 ∧ r.scores.Chain' (fun a b => b ≤ a)

/-! ## Routing and the authentication gate -/

/-- A parsed inbound request, one constructor per route of the app.
`claimsPath seg` is `GET /claims/<seg>`, before FastAPI has chosen
between the fixed `/claims/async` route and the parameterized
`/claims/{claim_identifier}` route. -/
inductive ApiRequest where
  | root
  | agentQuery (question : String)
  | createClaim (cand : ClaimCandidate)
  | listClaims (status : Option String)
  | claimsPath (segment : String)
  | getLogs
  | checkFraud (claim_id : Int)
deriving DecidableEq, Repr

/-- Which of the two `GET /claims/<seg>` routes matches. -/
inductive ClaimsGetRoute where
  | asyncList
  | single (identifier : String)
deriving DecidableEq, Repr

/-- FastAPI matches routes in registration order: `/claims/async`
(main.py 196) is registered before `/claims/{claim_identifier}`
(main.py 206), so the literal segment `async` takes the fixed route. -/
def routeClaimsSegment (seg : String) : ClaimsGetRoute :=
  if seg = "async" then .asyncList else .single seg

/-- `GET /claims/<seg>` end to end: the async list-all route or the
single-claim route, by registration order. -/
def handleClaimsSegment (seg : String) (st : AppState) : ApiResponse :=
  match routeClaimsSegment seg with
  | .asyncList => .claimList st.claims
  | .single ident => get_claim_route ident st

/-- `get_api_key` (main.py 61-65): the request passes only when the
header value equals the process-wide secret; an absent header is `None`
(`auto_error=False`) and never equals the secret string. -/
def get_api_key (secret : String) (provided : Option String) : Except Unit String :=
  if provided = some secret then .ok secret else .error ()

/-- Dispatch an authenticated request to its handler.  Only
`POST /claims` mutates the state or schedules background work. -/
def dispatch (agent : Agent) (classifier : Classifier) (today : Nat)
    (req : ApiRequest) (st : AppState) : ApiResponse × AppState × List BgTask :=
  match req with
  | .root => (.rootMsg, st, [])
  | .agentQuery q =>
    (match agent q with
     | .ok r => .agentOut r
     | .error e => .httpError 500 e, st, [])
  | .createClaim cand => create_claim today cand st
  | .listClaims status => (.claimList (get_claims status st), st, [])
  | .claimsPath seg => (handleClaimsSegment seg st, st, [])
  | .getLogs => (.logsOut st.logs, st, [])
  | .checkFraud cid => (check_fraudulent_claim classifier cid st, st, [])

/-- The app boundary: `dependencies=[Depends(get_api_key)]` (main.py
69-73) runs the gate before any handler, on every route. -/
def handleRequest (secret : String) (agent : Agent) (classifier : Classifier)
    (today : Nat) (provided : Option String) (req : ApiRequest) (st : AppState) :
    ApiResponse × AppState × List BgTask :=
  match get_api_key secret provided with
  | .error _ => (.httpError 401 "Invalid or missing API Key", st, [])
  | .ok _ => dispatch agent classifier today req st

/-- A classifier usable as a concrete instance of the external model's
contract: both labels returned in candidate order with scores 1 and 0. -/
def sampleClassifier : Classifier :=
  fun _ _ => ⟨["fraudulent", "not fraudulent"], [1, 0]⟩

/-! ## The claims -/

/-- C1: for every caller-supplied identifier string, `get_claim`
resolves it to exactly one lookup predicate — by `Claim.id == n` when
the string parses as a base-10 integer `n`, otherwise by
`Claim.claim_number == s` with exact, case-sensitive string equality —
and resolution itself never fails (`resolve` is total, and `get_claim`
is exactly the resolved predicate run over the table). -/
theorem C1_identifier_resolution (s : String) :
    (∀ n : Int, pyIntParse s = some n → resolve s = .byId n) ∧
    (pyIntParse s = none → resolve s = .byClaimNumber s) ∧
    (∀ st : AppState, get_claim s st =
      match applyPredicate (resolve s) st.claims with
      | some c => .ok c
      | none => .error s) := by
  refine ⟨fun n h => ?_, fun h => ?_, fun st => rfl⟩ <;> simp [resolve, h]

/-- C2: for every request to every exposed operation, a missing or
mismatched credential yields the 401 authorization error with the state
untouched and no background work scheduled — no handler, store or
adapter code runs — while a matching credential passes the request
through to its handler unchanged. -/
theorem C2_auth_gate (secret : String) (agent : Agent) (classifier : Classifier)
    (today : Nat) (provided : Option String) (req : ApiRequest) (st : AppState) :
    (provided ≠ some secret →
      handleRequest secret agent classifier today provided req st =
        (.httpError 401 "Invalid or missing API Key", st, [])) ∧
    (provided = some secret →
      handleRequest secret agent classifier today provided req st =
        dispatch agent classifier today req st) := by
  constructor <;> intro h <;> simp [handleRequest, get_api_key, h]

/-- C3: a `create_claim` call whose validated body carries the
`claim_number` of a claim already in the store fails with the conflict
error (the store's uniqueness constraint) and leaves the state exactly
as it was — no partial write, no background task. -/
theorem C3_duplicate_conflict (today : Nat) (cand : ClaimCandidate) (st : AppState)
    (v : ClaimCreate) (hv : validateClaimCreate cand = .ok v)
    (c0 : Claim) (hc0 : c0 ∈ st.claims) (hdup : c0.claim_number = v.claim_number) :
    create_claim today cand st = (.conflictError, st, []) := by
  have hany : st.claims.any (fun c => c.claim_number == v.claim_number) = true :=
    List.any_eq_true.mpr ⟨c0, hc0, by simp [hdup]⟩
  simp [create_claim, hv, hany]

/-- Witness for C3: creating a second claim numbered `A1` against a
store already holding one is rejected and the store is unchanged. -/
theorem C3_duplicate_conflict_witness :
    create_claim 0 ⟨some "A1", some "Jo", some (.ofNum 500), none, none, none, none⟩
        ⟨[⟨1, "A1", "Ann", .finite 100, "pending", 0, none, false⟩], []⟩ =
      (.conflictError, ⟨[⟨1, "A1", "Ann", .finite 100, "pending", 0, none, false⟩], []⟩, []) :=
  C3_duplicate_conflict 0 _ _ ⟨"A1", "Jo", .finite 500, "pending", none, none, false⟩ rfl
    ⟨1, "A1", "Ann", .finite 100, "pending", 0, none, false⟩ (by simp) rfl

/-- C4: `create_claim` with claim_number `A1`, claimant_name `Jo` and
the string amount `500` succeeds whenever `A1` is free: the amount is
coerced to the number 500, status defaults to `pending`, `is_approved`
to false, `date_filed` to the creation date, description stays absent;
and any amount string `float(...)` cannot convert makes validation fail
with a validation error, writing nothing. -/
theorem C4_create_coercion_and_defaults (today : Nat) (st : AppState)
    (hfree : ∀ c ∈ st.claims, c.claim_number ≠ "A1") :
    (∃ c : Claim,
      create_claim today ⟨some "A1", some "Jo", some (.ofStr "500"), none, none, none, none⟩ st =
        (.claimOut c, { st with claims := st.claims ++ [c] }, [.logCreate "A1"]) ∧
      c.claim_number = "A1" ∧ c.claimant_name = "Jo" ∧ c.amount = .finite 500 ∧
      c.status = "pending" ∧ c.is_approved = false ∧ c.date_filed = today ∧
      c.description = none) ∧
    (∀ s : String, pyFloatParse s = none →
      ∀ cand : ClaimCandidate, cand.amount = some (.ofStr s) →
        ∃ e, ∀ st2 : AppState, create_claim today cand st2 = (.validationError e, st2, [])) := by
  constructor
  · have hany : (st.claims.any (fun c => c.claim_number == "A1")) = false := by
      rw [List.any_eq_false]
      intro c hc
      simpa using hfree c hc
    have hval : validateClaimCreate ⟨some "A1", some "Jo", some (.ofStr "500"), none, none, none, none⟩
        = .ok ⟨"A1", "Jo", .finite 500, "pending", none, none, false⟩ := rfl
    refine ⟨{ id := nextClaimId st.claims, claim_number := "A1", claimant_name := "Jo",
              amount := .finite 500, status := "pending", date_filed := today,
              description := none, is_approved := false }, ?_, rfl, rfl, rfl, rfl, rfl, rfl, rfl⟩
    simp [create_claim, hval, hany]
  · intro s hs cand hcand
    cases h1 : cand.claim_number with
    | none =>
      exact ⟨.missing "claim_number", fun st2 => by simp [create_claim, validateClaimCreate, h1]⟩
    | some cn =>
      cases h2 : cand.claimant_name with
      | none =>
        exact ⟨.missing "claimant_name", fun st2 => by
          simp [create_claim, validateClaimCreate, h1, h2]⟩
      | some nm =>
        exact ⟨.notANumber "amount", fun st2 => by
          simp [create_claim, validateClaimCreate, h1, h2, hcand, coerceAmount, hs]⟩

/-- Witness for C4: the creation on an empty store on day 3, with the
coerced amount and the defaults visible. -/
theorem C4_create_coercion_and_defaults_witness :
    ∃ c : Claim,
      create_claim 3 ⟨some "A1", some "Jo", some (.ofStr "500"), none, none, none, none⟩ ⟨[], []⟩ =
        (.claimOut c, ⟨[c], []⟩, [.logCreate "A1"]) ∧
      c.amount = .finite 500 ∧ c.status = "pending" ∧ c.is_approved = false ∧
      c.date_filed = 3 := by
  obtain ⟨c, h1, _, _, h4, h5, h6, h7, _⟩ :=
    (C4_create_coercion_and_defaults 3 ⟨[], []⟩ (by simp)).1
  exact ⟨c, by simpa using h1, h4, h5, h6, h7⟩

/-- C5: every successful `create_claim` schedules exactly one logging
task and writes no log itself (the append is outside the critical
path); running that task appends exactly one `ClaimLog` row with action
`create` whose `claim_id` is the created claim's id, and against any
state where the claim cannot be re-read by `claim_number` the row is
still appended, with a null `claim_id`, the claims table untouched. -/
theorem C5_audit_log (today tlog : Nat) (cand : ClaimCandidate) (st st2 : AppState)
    (c : Claim) (tasks : List BgTask)
    (h : create_claim today cand st = (.claimOut c, st2, tasks)) :
    tasks = [.logCreate c.claim_number] ∧
    st2.logs = st.logs ∧
    (∃ entry : ClaimLog,
      runBgTask tlog (.logCreate c.claim_number) st2 =
        { st2 with logs := st2.logs ++ [entry] } ∧
      entry.action = "create" ∧ entry.claim_id = some c.id ∧
      entry.message = "Claim created: " ++ c.claim_number) ∧
    (∀ stX : AppState,
      stX.claims.find? (fun x => x.claim_number == c.claim_number) = none →
      ∃ entry : ClaimLog,
        runBgTask tlog (.logCreate c.claim_number) stX =
          { stX with logs := stX.logs ++ [entry] } ∧
        entry.action = "create" ∧ entry.claim_id = none) := by
  cases hval : validateClaimCreate cand with
  | error e => simp [create_claim, hval] at h
  | ok v =>
    cases hany : st.claims.any (fun x => x.claim_number == v.claim_number) with
    | true => simp [create_claim, hval, hany] at h
    | false =>
      simp only [create_claim, hval, hany, Bool.false_eq_true, if_false,
        Prod.mk.injEq, ApiResponse.claimOut.injEq] at h
      obtain ⟨hc, hst2, htasks⟩ := h
      have hcn : c.claim_number = v.claim_number := by rw [← hc]
      refine ⟨by rw [← htasks, hcn], by rw [← hst2], ?_, ?_⟩
      · -- the re-read inside the log task finds the created claim
        have hnone : st.claims.find? (fun x => x.claim_number == c.claim_number) = none := by
          apply List.find?_eq_none.mpr
          intro x hx
          have := List.any_eq_false.mp hany x hx
          simpa [hcn] using this
        have hfind : st2.claims.find? (fun x => x.claim_number == c.claim_number) = some c := by
          rw [← hst2]
          simp only [List.find?_append, hnone, Option.none_or]
          simp [List.find?, hcn, hc]
        refine ⟨⟨nextLogId st2.logs, some c.id, "create",
          "Claim created: " ++ c.claim_number, tlog⟩, ?_, rfl, rfl, rfl⟩
        simp [runBgTask, log_claim_creation, hfind]
      · intro stX hX
        refine ⟨⟨nextLogId stX.logs, none, "create",
          "Claim created: " ++ c.claim_number, tlog⟩, ?_, rfl, rfl⟩
        simp [runBgTask, log_claim_creation, hX]

/-- Witness for C5: the task scheduled by creating claim `A1` on an
empty store, run on day 5, appends one `create` entry for claim id 1. -/
theorem C5_audit_log_witness :
    ∃ entry : ClaimLog,
      runBgTask 5 (.logCreate "A1")
          ⟨[⟨1, "A1", "Jo", .finite 500, "pending", 0, none, false⟩], []⟩ =
        ⟨[⟨1, "A1", "Jo", .finite 500, "pending", 0, none, false⟩], [entry]⟩ ∧
      entry.action = "create" ∧ entry.claim_id = some 1 := by
  obtain ⟨-, -, ⟨entry, he1, he2, he3, -⟩, -⟩ :=
    C5_audit_log 0 5 ⟨some "A1", some "Jo", some (.ofStr "500"), none, none, none, none⟩
      ⟨[], []⟩ ⟨[⟨1, "A1", "Jo", .finite 500, "pending", 0, none, false⟩], []⟩
      ⟨1, "A1", "Jo", .finite 500, "pending", 0, none, false⟩ [.logCreate "A1"] rfl
  exact ⟨entry, by simpa using he1, he2, by simpa using he3⟩

/-- C6: an identifier whose resolved predicate matches no stored claim
makes `get_claim` fail carrying the original identifier, and the route
renders the custom handler's 404 body with that identifier echoed back
verbatim. -/
theorem C6_not_found_echo (identifier : String) (st : AppState)
    (h : applyPredicate (resolve identifier) st.claims = none) :
    get_claim identifier st = .error identifier ∧
    get_claim_route identifier st =
      .httpError 404 ("Claim with id " ++ identifier ++ " not found (custom handler)") := by
  have h1 : get_claim identifier st = .error identifier := by simp [get_claim, h]
  exact ⟨h1, by simp [get_claim_route, h1, claim_not_found_handler, claimNotFoundDetail]⟩

/-- Witness for C6: `get_claim "999999"` on an empty store, echoing
`999999` in the rendered detail. -/
theorem C6_not_found_echo_witness :
    get_claim "999999" ⟨[], []⟩ = .error "999999" ∧
    get_claim_route "999999" ⟨[], []⟩ =
      .httpError 404 "Claim with id 999999 not found (custom handler)" := by
  have h := C6_not_found_echo "999999" ⟨[], []⟩ rfl
  exact ⟨h.1, h.2⟩

/-- C7: a create body missing one or more of the required fields
`claim_number`, `claimant_name`, `amount` fails validation with an
error naming the first missing field in declaration order, and the
operation writes nothing to the store. -/
theorem C7_missing_required_field (cand : ClaimCandidate) (f : String)
    (h : firstMissingRequired cand = some f) :
    validateClaimCreate cand = .error (.missing f) ∧
    (∀ today (st : AppState), create_claim today cand st =
      (.validationError (.missing f), st, [])) := by
  cases hcn : cand.claim_number with
  | none =>
    simp [firstMissingRequired, hcn] at h
    subst h
    have hv : validateClaimCreate cand = .error (.missing "claim_number") := by
      simp [validateClaimCreate, hcn]
    exact ⟨hv, fun today st => by simp [create_claim, hv]⟩
  | some cn =>
    cases hnm : cand.claimant_name with
    | none =>
      simp [firstMissingRequired, hcn, hnm] at h
      subst h
      have hv : validateClaimCreate cand = .error (.missing "claimant_name") := by
        simp [validateClaimCreate, hcn, hnm]
      exact ⟨hv, fun today st => by simp [create_claim, hv]⟩
    | some nm =>
      cases ham : cand.amount with
      | none =>
        simp [firstMissingRequired, hcn, hnm, ham] at h
        subst h
        have hv : validateClaimCreate cand = .error (.missing "amount") := by
          simp [validateClaimCreate, hcn, hnm, ham]
        exact ⟨hv, fun today st => by simp [create_claim, hv]⟩
      | some a =>
        simp [firstMissingRequired, hcn, hnm, ham] at h

/-- Witness for C7: the body holding only claim_number `A1` is rejected
naming `claimant_name`, the first missing required field. -/
theorem C7_missing_required_field_witness :
    validateClaimCreate ⟨some "A1", none, none, none, none, none, none⟩ =
      .error (.missing "claimant_name") ∧
    create_claim 0 ⟨some "A1", none, none, none, none, none, none⟩ ⟨[], []⟩ =
      (.validationError (.missing "claimant_name"), ⟨[], []⟩, []) := by
  obtain ⟨h1, h2⟩ :=
    C7_missing_required_field ⟨some "A1", none, none, none, none, none, none⟩
      "claimant_name" rfl
  exact ⟨h1, h2 0 ⟨[], []⟩⟩

/-- C8: under the classifier contract (ranked output over the two
candidate labels), the fraud endpoint re-exposes the ranked output
verbatim for an existing claim id — labels and scores of length 2,
scores descending, predicted_label the first label, fraud_probability
the first score — and for an id with no row it answers 404 without
invoking the classifier (the result is the same for every classifier). -/
theorem C8_fraud_assessment (classifier : Classifier) (st : AppState) (cid : Int)
    (hr : ∀ text, WellRanked (classifier text fraudLabels)) :
    (∀ c : Claim, st.claims.find? (fun x => x.id == cid) = some c →
      ∃ l1 l2 s1 s2,
        classifier (claimText c) fraudLabels = ⟨[l1, l2], [s1, s2]⟩ ∧
        s2 ≤ s1 ∧
        check_fraudulent_claim classifier cid st =
          .fraudOut
            { claim_id := cid, claim_text := claimText c, labels := [l1, l2],
              scores := [s1, s2], predicted_label := l1, fraud_probability := s1 }) ∧
    (st.claims.find? (fun x => x.id == cid) = none →
      ∀ cl2 : Classifier, check_fraudulent_claim cl2 cid st =
        .httpError 404 "Claim not found") := by
  constructor
  · intro c hc
    obtain ⟨hl, hs, hchain⟩ := hr (claimText c)
    obtain ⟨l1, l2, hl2⟩ := List.length_eq_two.mp hl
    obtain ⟨s1, s2, hs2⟩ := List.length_eq_two.mp hs
    have hcl : classifier (claimText c) fraudLabels = ⟨[l1, l2], [s1, s2]⟩ := by
      cases hr2 : classifier (claimText c) fraudLabels with
      | mk labels scores =>
        rw [hr2] at hl2 hs2
        simp only at hl2 hs2
        rw [hl2, hs2]
    rw [hs2] at hchain
    refine ⟨l1, l2, s1, s2, hcl, (List.chain'_cons.mp hchain).1, ?_⟩
    simp [check_fraudulent_claim, hc, hcl]
  · intro hnone cl2
    simp [check_fraudulent_claim, hnone]

/-- Witness for C8: the sample classifier on a one-claim store. -/
theorem C8_fraud_assessment_witness :
    ∃ l1 l2 s1 s2,
      sampleClassifier
          (claimText ⟨1, "7", "Jo", .finite 500, "pending", 0, none, false⟩) fraudLabels =
        ⟨[l1, l2], [s1, s2]⟩ ∧
      s2 ≤ s1 ∧
      check_fraudulent_claim sampleClassifier 1
          ⟨[⟨1, "7", "Jo", .finite 500, "pending", 0, none, false⟩], []⟩ =
        .fraudOut
          { claim_id := 1,
            claim_text := claimText ⟨1, "7", "Jo", .finite 500, "pending", 0, none, false⟩,
            labels := [l1, l2], scores := [s1, s2], predicted_label := l1,
            fraud_probability := s1 } :=
  (C8_fraud_assessment sampleClassifier
      ⟨[⟨1, "7", "Jo", .finite 500, "pending", 0, none, false⟩], []⟩ 1
      (fun _ => ⟨rfl, rfl, by norm_num [List.chain'_cons, sampleClassifier]⟩)).1
    ⟨1, "7", "Jo", .finite 500, "pending", 0, none, false⟩ rfl

/-- C9: the literal identifier `async` is taken by the list-all route
registered first, so the single-claim lookup is never invoked for it:
the response for segment `async` is always the full claim list, never a
single claim and never the single-claim 404 — a claim whose
claim_number is `async` cannot be retrieved through the single-claim
path.  Any other segment takes the single-claim route. -/
theorem C9_async_shadows_single (st : AppState) :
    routeClaimsSegment "async" = .asyncList ∧
    handleClaimsSegment "async" st = .claimList st.claims ∧
    (∀ c : Claim, handleClaimsSegment "async" st ≠ .claimOut c) ∧
    (∀ d : String, handleClaimsSegment "async" st ≠ .httpError 404 d) ∧
    (∀ s : String, s ≠ "async" → routeClaimsSegment s = .single s) := by
  refine ⟨rfl, rfl, fun c h => ?_, fun d h => ?_, fun s hs => ?_⟩
  · simp [handleClaimsSegment, routeClaimsSegment] at h
  · simp [handleClaimsSegment, routeClaimsSegment] at h
  · simp [routeClaimsSegment, hs]

/-- C10: a stored claim whose own claim_number parses as the integer
`n` is looked up by id only: any claim `get_claim` returns for that
string has id `n`, the claim itself comes back only when its id happens
to be `n`, and when no stored claim has id `n` the call is a not-found
error. -/
theorem C10_numeric_claim_number (st : AppState) (c : Claim) (n : Int)
    (_hc : c ∈ st.claims) (hp : pyIntParse c.claim_number = some n) :
    resolve c.claim_number = .byId n ∧
    (∀ c2 : Claim, get_claim c.claim_number st = .ok c2 → c2.id = n) ∧
    (c.id ≠ n → get_claim c.claim_number st ≠ .ok c) ∧
    ((∀ x ∈ st.claims, x.id ≠ n) → get_claim c.claim_number st = .error c.claim_number) := by
  have hres : resolve c.claim_number = .byId n := by simp [resolve, hp]
  have hmain : ∀ c2 : Claim, get_claim c.claim_number st = .ok c2 → c2.id = n := by
    intro c2 h
    unfold get_claim at h
    rw [hres] at h
    cases hfind : st.claims.find? (fun x => x.id == n) with
    | none => simp [applyPredicate, hfind] at h
    | some cx =>
      simp [applyPredicate, hfind] at h
      have := List.find?_some hfind
      rw [h] at this
      simpa using this
  refine ⟨hres, hmain, fun hne h => hne (hmain c h), fun hall => ?_⟩
  have hfind : st.claims.find? (fun x => x.id == n) = none :=
    List.find?_eq_none.mpr (fun x hx => by simpa using hall x hx)
  simp [get_claim, hres, applyPredicate, hfind]

/-- Witness for C10: the stored claim numbered `7` with id 1 is not
reachable through `get_claim "7"`, which resolves to an id lookup and
misses. -/
theorem C10_numeric_claim_number_witness :
    resolve "7" = .byId 7 ∧
    get_claim "7" ⟨[⟨1, "7", "Jo", .finite 500, "pending", 0, none, false⟩], []⟩ =
      .error "7" := by
  obtain ⟨h1, -, -, h4⟩ :=
    C10_numeric_claim_number ⟨[⟨1, "7", "Jo", .finite 500, "pending", 0, none, false⟩], []⟩
      ⟨1, "7", "Jo", .finite 500, "pending", 0, none, false⟩ 7 (by simp) rfl
  exact ⟨h1, h4 (by decide)⟩
